import Mathlib

/-!
Shallow embedding of the watcher repository (src/watcher.py, src/network_types.py)
and proofs about its observation-normalization-analysis-reporting pipeline.

Python strings are modelled as Lean `String`; the Python string operations the
code uses (`str.replace`, slicing `[1:-1]`, `int(...)` parsing, `str(tuple)`
rendering of `addr` named tuples) are embedded as executable functions over the
underlying character lists.  Python exceptions are modelled with `Except PyErr`;
in-place object mutation (the lazy `pid_details` caching in
`IpConnection.__str__`) is modelled by state passing: the mutating operation
returns the updated object alongside its result.  The external collaborator
`psutil` is modelled by an environment `ProcEnv`: a map from pid to the string
`str(psutil.Process(pid))` for live processes (`none` models a process that
does not exist, on which `psutil.Process` raises `NoSuchProcess`).
-/

/-- The space character, written via its code point. -/
def spaceChar : Char := Char.ofNat 32

/-- The single-quote character, written via its code point. -/
def quoteChar : Char := Char.ofNat 39

/-- A one-character string holding a single quote. -/
def quoteS : String := String.mk [quoteChar]

/-- Model of Python exceptions raised by the embedded code. -/
inductive PyErr where
  | valueError (msg : String)
  | keyError (key : String)
  | noSuchProcess (pid : Nat)
deriving DecidableEq

/-- Decidable equality for `Except`, so that concrete runs of the embedded
code can be checked by `decide`. -/
instance {ε α : Type} [DecidableEq ε] [DecidableEq α] : DecidableEq (Except ε α) := fun x y =>
  match x, y with
  | .error a, .error b =>
    match decEq a b with
    | .isTrue h => .isTrue (h ▸ rfl)
    | .isFalse h => .isFalse (fun hc => h (Except.error.inj hc))
  | .error _, .ok _ => .isFalse (fun hc => Except.noConfusion hc)
  | .ok _, .error _ => .isFalse (fun hc => Except.noConfusion hc)
  | .ok a, .ok b =>
    match decEq a b with
    | .isTrue h => .isTrue (h ▸ rfl)
    | .isFalse h => .isFalse (fun hc => h (Except.ok.inj hc))

/-- A Python value that is either a string or a (non-negative) integer.  The
watcher stores either the string sentinel or a raw integer pid in the
`pid_number` field, so the field type must carry both. -/
inductive PyVal where
  | str (s : String)
  | int (n : Nat)
deriving DecidableEq

/-- Whether a `PyVal` is a Python string. -/
def PyVal.isStr : PyVal → Bool
  | .str _ => true
  | .int _ => false

/-- Rendering of a `PyVal` inside an f-string, as Python `str()` does. -/
def PyVal.show : PyVal → String
  | .str s => s
  | .int n => toString n

/-- Fuel-driven removal of every (non-overlapping, leftmost-first) occurrence
of `pat` from a character list; the fuel is the list length, which always
suffices. -/
def removeAllSubFuel (pat : List Char) : Nat → List Char → List Char
  | _, [] => []
  | 0, l => l
  | fuel + 1, c :: rest =>
    if pat.isPrefixOf (c :: rest) ∧ 0 < pat.length then
      removeAllSubFuel pat fuel (List.drop (pat.length - 1) rest)
    else c :: removeAllSubFuel pat fuel rest

/-- Model of Python `s.replace(pat, "")`: delete every occurrence of `pat`. -/
def pyReplaceDel (s pat : String) : String :=
  String.mk (removeAllSubFuel pat.data s.data.length s.data)

/-- Model of the Python slice `s[1:-1]`. -/
def pySlice1m1 (s : String) : String := String.mk ((s.data.drop 1).dropLast)

/-- Model of Python `s.replace(' ', '')`: delete every space. -/
def removeSpaces (s : String) : String :=
  String.mk (s.data.filter (fun c => c ≠ spaceChar))

/-- Decimal digits to a natural number; `none` when empty or a non-digit
appears. -/
def digitsToNat (l : List Char) : Option Nat :=
  match l with
  | [] => none
  | _ =>
    l.foldl
      (fun acc c => acc.bind (fun a => if c.isDigit then some (a * 10 + (c.toNat - 48)) else none))
      (some 0)

/-- Strip leading and trailing spaces from a character list. -/
def trimSpaces (l : List Char) : List Char :=
  ((l.dropWhile (fun c => c = spaceChar)).reverse.dropWhile (fun c => c = spaceChar)).reverse

/-- Model of Python `int(s)` for a string argument: optional sign, then
decimal digits; anything else raises `ValueError`, modelled as `none`. -/
def pyIntOfString (s : String) : Option Int :=
  match trimSpaces s.data with
  | [] => none
  | c :: rest =>
    if c = Char.ofNat 45 then (digitsToNat rest).map (fun n => -(n : Int))
    else if c = Char.ofNat 43 then (digitsToNat rest).map Int.ofNat
    else (digitsToNat (c :: rest)).map Int.ofNat

/-- Model of Python `int(x)` on a `PyVal`: the identity on integers, parsing
on strings. -/
def pyInt : PyVal → Option Int
  | .int n => some (Int.ofNat n)
  | .str s => pyIntOfString s

/-- The environment standing for `psutil`: pid of a live process maps to the
string `str(psutil.Process(pid))`; `none` means `psutil.Process` raises
`NoSuchProcess` for this pid. -/
abbrev ProcEnv := Nat → Option String

/-- The literal `"psutil.Process"` removed by the source line
`str(p).replace('psutil.Process', '')` (src/watcher.py line 62). -/
def psutilProcessTag : String := "psutil.Process"

/-- Embedding of the `IpConnection` dataclass of src/watcher.py lines 31-57
(the pipeline Finding).  `pid_number` is declared `str` in the source but the
watcher in fact assigns a raw integer pid, so the field is embedded as
`PyVal`. -/
structure IpConnection where
  ip_version : String
  transport_version : String
  local_address : String
  remote_address : String
  connection_state : String
  pid_number : PyVal
  pid_details : String := "-"
deriving DecidableEq

/-- Embedding of the pid-details resolution inside `IpConnection.__str__`
(src/watcher.py lines 60-64):

    try:
        p = psutil.Process(int(self.pid_number))
        self.pid_details = f"{str(p).replace('psutil.Process', '')[1:-1]}"
    except ValueError:
        pass

`int(...)` failure and a negative pid raise `ValueError`, which the source
catches (`.ok` with the object unchanged); a pid unknown to the OS makes
`psutil.Process` raise `NoSuchProcess`, which the source does NOT catch
(`.error`).  On success the object is returned with `pid_details` updated in
place. -/
def resolvePidDetails (env : ProcEnv) (c : IpConnection) : Except PyErr IpConnection :=
  match pyInt c.pid_number with
  | none => .ok c
  | some n =>
    if n < 0 then .ok c
    else
      match env n.toNat with
      | none => .error (.noSuchProcess n.toNat)
      | some procStr => .ok { c with pid_details := pySlice1m1 (pyReplaceDel procStr psutilProcessTag) }

/-- Embedding of the f-string returned by `IpConnection.__str__`
(src/watcher.py lines 66-70). -/
def IpConnection.render (c : IpConnection) : String :=
  c.ip_version ++ ":" ++ c.transport_version ++ ", Local:" ++ c.local_address ++
    ", Remote:" ++ c.remote_address ++ ", Status:" ++ c.connection_state ++
    ", ProcessID:" ++ c.pid_number.show ++ ", ProcessDetails(" ++ c.pid_details ++ ")"

/-- Embedding of `IpConnection.__str__` (src/watcher.py lines 59-70):
resolves `pid_details` (possibly raising), then returns the rendered string
together with the post-state of the (mutated-in-place) object. -/
def IpConnection.strImpl (env : ProcEnv) (c : IpConnection) :
    Except PyErr (String × IpConnection) :=
  match resolvePidDetails env c with
  | .error e => .error e
  | .ok c2 => .ok (c2.render, c2)

/-- Embedding of `ConnState.members()` from src/network_types.py lines 25-30. -/
def ConnState.members : List String :=
  ["ESTABLISHED", "LAST_ACK", "LISTEN", "NONE", "TIME_WAIT"]

/-- Embedding of the `IpSockEndpoint` named tuple of src/network_types.py
line 14. -/
structure NetworkTypes.IpSockEndpoint where
  ip_addr : String
  tr_prot : String
  port_num : String
deriving DecidableEq

/-- Embedding of the stricter `IpConnection` class of src/network_types.py
lines 59-97 (its post-construction attributes). -/
structure NetworkTypes.IpConnection where
  _start_socket : NetworkTypes.IpSockEndpoint
  _end_socket : NetworkTypes.IpSockEndpoint
  _conn_state : String
deriving DecidableEq

/-- Embedding of `network_types.IpConnection.__init__` (src/network_types.py
lines 72-81): mismatched endpoint transport protocols raise `ValueError`, an
unrecognized connection state raises `ValueError`, otherwise the object is
constructed. -/
def NetworkTypes.IpConnection.init (start_socket end_socket : NetworkTypes.IpSockEndpoint)
    (conn_state : String) : Except PyErr NetworkTypes.IpConnection :=
  if start_socket.tr_prot ≠ end_socket.tr_prot then
    .error (.valueError "Different transport protocols used in socket endpoints.")
  else if conn_state ∉ ConnState.members then
    .error (.valueError "Connection state has to be one of following:")
  else
    .ok ⟨start_socket, end_socket, conn_state⟩

/-- The socket type constant `socket.SOCK_STREAM`. -/
def SOCK_STREAM : Nat := 1

/-- The socket type constant `socket.SOCK_DGRAM`. -/
def SOCK_DGRAM : Nat := 2

/-- Embedding of `IpConnectionWatcher.IP_MAPPER` (src/watcher.py lines
101-104) as a partial map; a key outside the dict raises `KeyError`,
modelled by `none`. -/
def IP_MAPPER (ip_kind : String) : Option String :=
  if ip_kind = "IP4" then some "inet4"
  else if ip_kind = "IP6" then some "inet6"
  else none

/-- Embedding of `IpConnectionWatcher.TRANSPORT_MAPPER` (src/watcher.py lines
106-109) as a partial map; a key outside the dict raises `KeyError`,
modelled by `none`. -/
def TRANSPORT_MAPPER (transport_kind : String) : Option Nat :=
  if transport_kind = "TCP" then some SOCK_STREAM
  else if transport_kind = "UDP" then some SOCK_DGRAM
  else none

/-- A raw socket record as returned by `psutil.net_connections`: socket type
constant, local and remote address (ip, port) or `none` for the empty tuple,
OS-reported status string, and optional owning pid. -/
structure SConn where
  type : Nat
  laddr : Option (String × Nat)
  raddr : Option (String × Nat)
  status : String
  pid : Option Nat
deriving DecidableEq

/-- Model of Python `str(...)` on a `psutil` `addr` named tuple (or on the
empty tuple `()` when the endpoint is absent), before space removal. -/
def pyStrAddr : Option (String × Nat) → String
  | none => "()"
  | some a => "addr(ip=" ++ quoteS ++ a.1 ++ quoteS ++ ", port=" ++ toString a.2 ++ ")"

/-- Embedding of `IpConnectionWatcher.__prepare_ip_connection` (src/watcher.py
lines 128-142).  Note the source assigns the raw integer pid to `pid_number`
(no `str(...)` conversion), and only the `None` pid becomes the string
sentinel. -/
def prepareIpConnection (ip_kind transport_kind : String) (connection_finding : SConn) :
    IpConnection :=
  let pid_ : PyVal :=
    match connection_finding.pid with
    | none => .str "-"
    | some p => .int p
  { ip_version := ip_kind
    transport_version := transport_kind
    local_address := removeSpaces (pyStrAddr connection_finding.laddr)
    remote_address := removeSpaces (pyStrAddr connection_finding.raddr)
    connection_state := connection_finding.status
    pid_number := pid_
    pid_details := "-" }

/-- Embedding of the list comprehension on src/watcher.py line 125:

    [self.__prepare_ip_connection(conn) for conn in connections
     if conn.type == self.TRANSPORT_MAPPER[self.__transport_kind]]

The `TRANSPORT_MAPPER` subscript is evaluated once per element, so an unknown
transport kind raises `KeyError` at the first element — and is never evaluated
at all when `connections` is empty. -/
def listcompFilterPrepare (ip_kind transport_kind : String) :
    List SConn → Except PyErr (List IpConnection)
  | [] => .ok []
  | conn :: rest =>
    match TRANSPORT_MAPPER transport_kind with
    | none => .error (.keyError transport_kind)
    | some t =>
      match listcompFilterPrepare ip_kind transport_kind rest with
      | .error e => .error e
      | .ok tail =>
        .ok (if conn.type = t then prepareIpConnection ip_kind transport_kind conn :: tail else tail)

/-- Embedding of `IpConnectionWatcher.__fetch_ip_connections` (src/watcher.py
lines 120-125).  The OS collaborator is the map `os` from the psutil `kind`
string to the socket table.  The boolean of the result records whether the OS
socket-table query (`psutil.net_connections`) was made.  `IP_MAPPER` is
subscripted before the OS call, so an unknown ip kind raises `KeyError` with
the OS never queried. -/
def fetchIpConnections (os : String → List SConn) (ip_kind transport_kind : String) :
    Bool × Except PyErr (List IpConnection) :=
  match IP_MAPPER ip_kind with
  | none => (false, .error (.keyError ip_kind))
  | some ip_kind_ =>
    let connections := os ip_kind_
    (true, listcompFilterPrepare ip_kind transport_kind connections)

/-- Embedding of `IpConnectionWatcher.run` (src/watcher.py lines 115-118):
fetches and returns the list (the comprehension `[x for x in ip_findings]` is
an identity copy). -/
def IpConnectionWatcher.run (os : String → List SConn) (ip_kind transport_kind : String) :
    Bool × Except PyErr (List IpConnection) :=
  fetchIpConnections os ip_kind transport_kind

/-- Embedding of `AnalyzerService.analyze` (src/watcher.py lines 163-177),
parametrized by the concrete strategy `analyze_item` (called `g` here): an
accumulating loop that appends one `(finding, check)` pair per input. -/
def AnalyzerService.analyze {α : Type} (g : α → Bool) (findings : List α) :
    List (α × Bool) :=
  findings.foldl (fun acc finding_item => acc ++ [(finding_item, g finding_item)]) []

/-- The same loop instrumented with a counter of `analyze_item` invocations,
used to express call-count properties. -/
def AnalyzerService.analyzeInstr {α : Type} (g : α → Bool) (findings : List α) :
    List (α × Bool) × Nat :=
  findings.foldl (fun acc finding_item => (acc.1 ++ [(finding_item, g finding_item)], acc.2 + 1)) ([], 0)

/-- The banner line printed by `BasicReporter.report` when there is at least
one problematic finding (src/watcher.py line 231). -/
def bannerLine : String := "There are following problematic findings:"

/-- The bullet produced by `print(" *", str(finding))` (src/watcher.py
line 234). -/
def bulletStr : String := " * "

/-- State-passing embedding of the printing loop of `BasicReporter.report`
(src/watcher.py lines 229-234): walks the list, calls `str(...)` on each
flagged finding (which may mutate it in place, or raise), collects the printed
lines, and returns the post-state of the input list. -/
def reportLoop (env : ProcEnv) :
    List (IpConnection × Bool) → Except PyErr (List String × List (IpConnection × Bool))
  | [] => .ok ([], [])
  | (f, b) :: rest =>
    if b then
      match f.strImpl env with
      | .error e => .error e
      | .ok r =>
        match reportLoop env rest with
        | .error e => .error e
        | .ok rr => .ok ((bulletStr ++ r.1) :: rr.1, (r.2, b) :: rr.2)
    else
      match reportLoop env rest with
      | .error e => .error e
      | .ok rr => .ok (rr.1, (f, b) :: rr.2)

/-- Embedding of `BasicReporter.report` (src/watcher.py lines 217-234): the
banner is printed first when the filtered list of problematic checks is
non-empty, then one bulleted line per flagged finding.  The result pairs the
printed lines with the post-state of the input list (the findings are shared
objects, mutated in place by `str(...)`). -/
def BasicReporter.report (env : ProcEnv) (findings_checks : List (IpConnection × Bool)) :
    Except PyErr (List String × List (IpConnection × Bool)) :=
  match reportLoop env findings_checks with
  | .error e => .error e
  | .ok r =>
    if findings_checks.any (fun p => p.2) then .ok (bannerLine :: r.1, r.2)
    else .ok (r.1, r.2)

/-- Embedding of `SupervisorManager.report` (src/watcher.py lines 256-260):
one watcher run, one analyze pass over its findings, one reporter call, in
that order, with any stage failure propagating. -/
def SupervisorManager.report (env : ProcEnv) (os : String → List SConn)
    (ip_kind transport_kind : String) (g : IpConnection → Bool) :
    Bool × Except PyErr (List String × List (IpConnection × Bool)) :=
  let findings := IpConnectionWatcher.run os ip_kind transport_kind
  match findings.2 with
  | .error e => (findings.1, .error e)
  | .ok fs =>
    let findings_checks := AnalyzerService.analyze g fs
    (findings.1, BasicReporter.report env findings_checks)

/-! Concrete fixtures used by counterexamples and witnesses. -/

/-- A psutil environment with exactly one live process, pid 1234. -/
def env1 : ProcEnv := fun n =>
  if n = 1234 then some (psutilProcessTag ++ "(pid=1234, name=python)") else none

/-- A Finding attributed to live process 1234 (as the watcher builds them,
with a raw integer pid). -/
def f1 : IpConnection :=
  { ip_version := "IP4", transport_version := "TCP", local_address := "L",
    remote_address := "R", connection_state := "ESTABLISHED",
    pid_number := PyVal.int 1234, pid_details := "-" }

/-- The post-state of `f1` after `str()` resolved and cached its process
details. -/
def f1m : IpConnection := { f1 with pid_details := "pid=1234, name=python" }

/-- A Finding with the pid sentinel. -/
def fDash : IpConnection := { f1 with pid_number := PyVal.str "-" }

/-- A Finding whose pid 4242 belongs to a process that has exited. -/
def f4242 : IpConnection := { f1 with pid_number := PyVal.int 4242 }

/-- An OS collaborator whose socket table is empty for every family. -/
def osEmpty : String → List SConn := fun _ => []

/-- A raw TCP record with both endpoints and a pid. -/
def recA : SConn :=
  { type := 1, laddr := some ("127.0.0.1", 9150), raddr := some ("127.0.0.1", 56162),
    status := "ESTABLISHED", pid := some 1234 }

/-- A raw UDP record with no remote endpoint and no pid. -/
def recB : SConn :=
  { type := 2, laddr := some ("10.0.0.1", 53), raddr := none, status := "NONE", pid := none }

/-- A raw TCP listening record with no remote endpoint and no pid. -/
def recL : SConn :=
  { type := 1, laddr := some ("0.0.0.0", 80), raddr := none, status := "LISTEN", pid := none }

/-- An OS collaborator returning a mixed TCP/UDP table for the inet4 family. -/
def os1 : String → List SConn := fun k => if k = "inet4" then [recA, recB, recL] else []

/-- The trivially-true analysis strategy (the mock in src/watcher.py
lines 265-267). -/
def gTrue : IpConnection → Bool := fun _ => true

/-! Shared lemmas about the embedded pipeline. -/

/-- The accumulating loop of `analyze`, generalized over the accumulator. -/
theorem analyze_foldl_acc {α : Type} (g : α → Bool) (l : List α) (acc : List (α × Bool)) :
    l.foldl (fun a finding_item => a ++ [(finding_item, g finding_item)]) acc =
      acc ++ l.map (fun f => (f, g f)) := by
  induction l generalizing acc with
  | nil => simp
  | cons f rest ih => simp [ih]

/-- `analyze` is exactly a map over the findings. -/
theorem analyze_eq_map {α : Type} (g : α → Bool) (l : List α) :
    AnalyzerService.analyze g l = l.map (fun f => (f, g f)) := by
  simpa using analyze_foldl_acc g l []

/-- The instrumented loop, generalized over the accumulator. -/
theorem analyzeInstr_foldl_acc {α : Type} (g : α → Bool) (l : List α)
    (acc : List (α × Bool)) (n : Nat) :
    l.foldl (fun a finding_item => (a.1 ++ [(finding_item, g finding_item)], a.2 + 1)) (acc, n) =
      (acc ++ l.map (fun f => (f, g f)), n + l.length) := by
  induction l generalizing acc n with
  | nil => simp
  | cons f rest ih => simp [ih]; omega

/-- `analyzeInstr` returns the `analyze` output together with one
`analyze_item` invocation per input element. -/
theorem analyzeInstr_eq {α : Type} (g : α → Bool) (l : List α) :
    AnalyzerService.analyzeInstr g l = (AnalyzerService.analyze g l, l.length) := by
  simpa [AnalyzerService.analyzeInstr, analyze_eq_map] using analyzeInstr_foldl_acc g l [] 0

/-- Pid-details resolution never changes any field other than
`pid_details`. -/
theorem resolvePidDetails_frame (env : ProcEnv) (c c2 : IpConnection)
    (h : resolvePidDetails env c = .ok c2) :
    c2.ip_version = c.ip_version ∧ c2.transport_version = c.transport_version ∧
    c2.local_address = c.local_address ∧ c2.remote_address = c.remote_address ∧
    c2.connection_state = c.connection_state ∧ c2.pid_number = c.pid_number := by
  unfold resolvePidDetails at h
  split at h
  · cases h
    exact ⟨rfl, rfl, rfl, rfl, rfl, rfl⟩
  · split at h
    · cases h
      exact ⟨rfl, rfl, rfl, rfl, rfl, rfl⟩
    · split at h
      · simp at h
      · cases h
        exact ⟨rfl, rfl, rfl, rfl, rfl, rfl⟩

/-- The fields `IpConnection.__str__` leaves untouched on success, together
with the fact that an unflagged entry is left entirely alone — the frame
relation between an entry of the reporter input and the corresponding entry
after the reporter returned. -/
def frameRel (p q : IpConnection × Bool) : Prop :=
  q.2 = p.2 ∧ q.1.ip_version = p.1.ip_version ∧
  q.1.transport_version = p.1.transport_version ∧
  q.1.local_address = p.1.local_address ∧ q.1.remote_address = p.1.remote_address ∧
  q.1.connection_state = p.1.connection_state ∧ q.1.pid_number = p.1.pid_number ∧
  (p.2 = false → q = p)

/-- Specification-side description of the console output: the items whose
flag is true, in order, each rendered by `str(...)` and prefixed with the
bullet. -/
def renderFlagged (env : ProcEnv) : List (IpConnection × Bool) → Except PyErr (List String)
  | [] => .ok []
  | p :: rest =>
    if p.2 then
      match p.1.strImpl env with
      | .error e => .error e
      | .ok r =>
        match renderFlagged env rest with
        | .error e => .error e
        | .ok tail => .ok ((bulletStr ++ r.1) :: tail)
    else renderFlagged env rest

/-- When no entry is flagged, the reporter loop prints nothing and leaves the
list exactly as given. -/
theorem reportLoop_all_false (env : ProcEnv) (l : List (IpConnection × Bool))
    (h : ∀ p ∈ l, p.2 = false) : reportLoop env l = .ok ([], l) := by
  induction l with
  | nil => rfl
  | cons p rest ih =>
    have hp : p.2 = false := h p (List.mem_cons_self p rest)
    have hrest : reportLoop env rest = .ok ([], rest) :=
      ih (fun q hq => h q (List.mem_cons_of_mem p hq))
    cases p with
    | mk f b =>
      simp only at hp
      subst hp
      simp [reportLoop, hrest]

/-- On success, the lines collected by the reporter loop are exactly the
bulleted renderings of the flagged entries. -/
theorem reportLoop_renders (env : ProcEnv) (l : List (IpConnection × Bool))
    (lines : List String) (post : List (IpConnection × Bool))
    (h : reportLoop env l = .ok (lines, post)) : renderFlagged env l = .ok lines := by
  induction l generalizing lines post with
  | nil =>
    cases h
    rfl
  | cons p rest ih =>
    obtain ⟨f, b⟩ := p
    cases b with
    | false =>
      cases hrest : reportLoop env rest with
      | error e =>
        simp [reportLoop, hrest] at h
      | ok rr =>
        simp only [reportLoop, hrest, if_neg Bool.false_ne_true] at h
        rw [Except.ok.injEq, Prod.mk.injEq] at h
        obtain ⟨h1, _⟩ := h
        subst h1
        simpa [renderFlagged] using ih rr.1 rr.2 (by rw [hrest])
    | true =>
      cases hstr : IpConnection.strImpl env f with
      | error e =>
        simp [reportLoop, hstr] at h
      | ok r =>
        cases hrest : reportLoop env rest with
        | error e =>
          simp [reportLoop, hstr, hrest] at h
        | ok rr =>
          simp only [reportLoop, hstr, hrest, if_true] at h
          rw [Except.ok.injEq, Prod.mk.injEq] at h
          obtain ⟨h1, _⟩ := h
          subst h1
          have hren := ih rr.1 rr.2 (by rw [hrest])
          simp [renderFlagged, hstr, hren]

/-- On success, the reporter loop returns a list of the same shape in which
each flagged entry kept every field except possibly `pid_details`, and each
unflagged entry is untouched. -/
theorem reportLoop_frame (env : ProcEnv) (l : List (IpConnection × Bool))
    (lines : List String) (post : List (IpConnection × Bool))
    (h : reportLoop env l = .ok (lines, post)) : List.Forall₂ frameRel l post := by
  induction l generalizing lines post with
  | nil =>
    cases h
    exact List.Forall₂.nil
  | cons p rest ih =>
    obtain ⟨f, b⟩ := p
    cases b with
    | false =>
      cases hrest : reportLoop env rest with
      | error e =>
        simp [reportLoop, hrest] at h
      | ok rr =>
        simp only [reportLoop, hrest, if_neg Bool.false_ne_true] at h
        rw [Except.ok.injEq, Prod.mk.injEq] at h
        obtain ⟨_, h2⟩ := h
        subst h2
        exact List.Forall₂.cons
          ⟨rfl, rfl, rfl, rfl, rfl, rfl, rfl, fun _ => rfl⟩
          (ih rr.1 rr.2 (by rw [hrest]))
    | true =>
      cases hstr : IpConnection.strImpl env f with
      | error e =>
        simp [reportLoop, hstr] at h
      | ok r =>
        cases hrest : reportLoop env rest with
        | error e =>
          simp [reportLoop, hstr, hrest] at h
        | ok rr =>
          simp only [reportLoop, hstr, hrest, if_true] at h
          rw [Except.ok.injEq, Prod.mk.injEq] at h
          obtain ⟨_, h2⟩ := h
          subst h2
          have hfr : resolvePidDetails env f = .ok r.2 := by
            unfold IpConnection.strImpl at hstr
            cases hres : resolvePidDetails env f with
            | error e => rw [hres] at hstr; cases hstr
            | ok c2 =>
              rw [hres] at hstr
              rw [Except.ok.injEq, Prod.mk.injEq] at hstr
              rw [hstr.2]
          have hframe := resolvePidDetails_frame env f r.2 hfr
          exact List.Forall₂.cons
            ⟨rfl, hframe.1, hframe.2.1, hframe.2.2.1, hframe.2.2.2.1,
              hframe.2.2.2.2.1, hframe.2.2.2.2.2, fun hb => by simp at hb⟩
            (ih rr.1 rr.2 (by rw [hrest]))

/-- For a known transport socket type, the watcher comprehension succeeds and
is exactly filter-then-map over the raw table. -/
theorem listcomp_ok (ip_kind transport_kind : String) (t : Nat)
    (ht : TRANSPORT_MAPPER transport_kind = some t) (l : List SConn) :
    listcompFilterPrepare ip_kind transport_kind l =
      .ok ((l.filter (fun c => c.type = t)).map (prepareIpConnection ip_kind transport_kind)) := by
  induction l with
  | nil => rfl
  | cons c rest ih =>
    simp only [listcompFilterPrepare, ht, ih, List.filter_cons]
    by_cases hc : c.type = t
    · simp [hc]
    · simp [hc]

/-! Claim theorems. -/

/-- C2 (code bug): the pid-details resolution inside `IpConnection.__str__`
is supposed never to raise — and indeed a `pid_number` of the sentinel
leaves `pid_details` untouched — but for a numeric pid whose process has
exited since the snapshot, `psutil.Process` raises `NoSuchProcess`, which the
source catches only as `ValueError`, so the lookup failure propagates instead
of degrading to the sentinel.  Evaluated here at the failing input: pid 4242
with no such live process. -/
theorem C2_pid_lookup_code_bug :
    resolvePidDetails env1 f4242 = .error (.noSuchProcess 4242) ∧
    resolvePidDetails env1 fDash = .ok fDash := by decide

/-- C4 (counterexample): constructing the stricter connection type of
src/network_types.py with the unrecognized state CLOSE_WAIT is a
construction-time failure (a `ValueError`), contradicting the claim that
construction with an unrecognized state succeeds. -/
theorem C4_counterexample :
    NetworkTypes.IpConnection.init ⟨"1.1.1.1", "tcp", "80"⟩ ⟨"1.1.1.2", "tcp", "82"⟩ "CLOSE_WAIT" =
      .error (.valueError "Connection state has to be one of following:") := by decide

/-- C4 (amended): the pipeline Finding dataclass of src/watcher.py accepts an
unrecognized connection state (its construction is total), carries it through
unchanged, and `__str__` displays it as-is inside the rendered line — whereas
the stricter `network_types.IpConnection` rejects an unrecognized state at
construction time with a `ValueError`. -/
theorem C4_state_open_amended (st : String) (hst : st ∉ ConnState.members)
    (ip_kind transport_kind : String) (r : SConn) (hr : r.status = st)
    (env : ProcEnv) (c : IpConnection) (hc : c.connection_state = st) :
    (prepareIpConnection ip_kind transport_kind r).connection_state = st ∧
    (∀ s c2, IpConnection.strImpl env c = .ok (s, c2) →
      c2.connection_state = st ∧ ∃ a b, s = a ++ (st ++ b)) ∧
    (∀ sA sB : NetworkTypes.IpSockEndpoint, sA.tr_prot = sB.tr_prot →
      NetworkTypes.IpConnection.init sA sB st =
        .error (.valueError "Connection state has to be one of following:")) := by
  refine ⟨?_, ?_, ?_⟩
  · simp [prepareIpConnection, hr]
  · intro s c2 hok
    have hres : resolvePidDetails env c = .ok c2 ∧ s = c2.render := by
      unfold IpConnection.strImpl at hok
      cases hres2 : resolvePidDetails env c with
      | error e => rw [hres2] at hok; cases hok
      | ok c3 =>
        rw [hres2] at hok
        rw [Except.ok.injEq, Prod.mk.injEq] at hok
        obtain ⟨h1, h2⟩ := hok
        subst h2
        exact ⟨rfl, h1.symm⟩
    have hframe := resolvePidDetails_frame env c c2 hres.1
    have hstate : c2.connection_state = st := by rw [hframe.2.2.2.2.1, hc]
    refine ⟨hstate,
      c2.ip_version ++ ":" ++ c2.transport_version ++ ", Local:" ++ c2.local_address ++
        ", Remote:" ++ c2.remote_address ++ ", Status:",
      ", ProcessID:" ++ c2.pid_number.show ++ ", ProcessDetails(" ++ c2.pid_details ++ ")", ?_⟩
    rw [hres.2]
    simp [IpConnection.render, String.append_assoc, hstate]
  · intro sA sB hAB
    simp [NetworkTypes.IpConnection.init, hAB, hst]

/-- A raw TCP record carrying the unrecognized state CLOSE_WAIT. -/
def recCW : SConn := { recA with status := "CLOSE_WAIT" }

/-- A Finding carrying the unrecognized state CLOSE_WAIT. -/
def fCW : IpConnection := { f1 with connection_state := "CLOSE_WAIT" }

/-- Witness for C4 (amended) at the concrete state CLOSE_WAIT. -/
theorem C4_witness :
    (prepareIpConnection "IP4" "TCP" recCW).connection_state = "CLOSE_WAIT" ∧
    NetworkTypes.IpConnection.init ⟨"1.1.1.1", "tcp", "80"⟩ ⟨"1.1.1.2", "tcp", "82"⟩ "CLOSE_WAIT" =
      .error (.valueError "Connection state has to be one of following:") := by
  have h := C4_state_open_amended "CLOSE_WAIT" (by decide) "IP4" "TCP" recCW (by decide)
    env1 fCW (by decide)
  exact ⟨h.1, h.2.2 ⟨"1.1.1.1", "tcp", "80"⟩ ⟨"1.1.1.2", "tcp", "82"⟩ (by decide)⟩

/-- C5: constructing a `network_types.IpConnection` from two endpoints whose
transport-protocol tags differ always fails with the `ValueError` raised on
src/network_types.py line 74. -/
theorem C5_mismatched_transport (sA sB : NetworkTypes.IpSockEndpoint) (st : String)
    (h : sA.tr_prot ≠ sB.tr_prot) :
    NetworkTypes.IpConnection.init sA sB st =
      .error (.valueError "Different transport protocols used in socket endpoints.") := by
  simp [NetworkTypes.IpConnection.init, h]

/-- Witness for C5 at the endpoints of the repository's own negative test
(tcp vs tcp6). -/
theorem C5_witness :
    NetworkTypes.IpConnection.init ⟨"1.1.1.1", "tcp", "80"⟩ ⟨"1.1.1.2", "tcp6", "82"⟩ "NONE" =
      .error (.valueError "Different transport protocols used in socket endpoints.") :=
  C5_mismatched_transport ⟨"1.1.1.1", "tcp", "80"⟩ ⟨"1.1.1.2", "tcp6", "82"⟩ "NONE" (by decide)

/-- C6: `AnalyzerService.analyze` is exactly an order-preserving map: the
output has the same length, its i-th pair is the i-th input finding together
with `analyze_item` of that finding (this is the map equation), the empty list
maps to the empty list, and a singleton maps to exactly one pair. -/
theorem C6_analyze_identity_order {α : Type} (g : α → Bool) (l : List α) :
    AnalyzerService.analyze g l = l.map (fun f => (f, g f)) ∧
    (AnalyzerService.analyze g l).length = l.length ∧
    AnalyzerService.analyze g ([] : List α) = [] ∧
    (∀ f : α, AnalyzerService.analyze g [f] = [(f, g f)]) := by
  refine ⟨analyze_eq_map g l, ?_, rfl, ?_⟩
  · rw [analyze_eq_map]
    simp
  · intro f
    rw [analyze_eq_map]
    simp

/-- C8 (code bug): the watcher maps a raw record with a pid to a Finding whose
`pid_number` is the raw integer, not the process id as a string (contradicting
the dataclass field annotation `pid_number: str` and the spec); the `None` pid
becomes the string sentinel, and both rendered addresses contain no space.
Evaluated at the concrete records `recA` (pid 1234) and `recB` (no pid). -/
theorem C8_pid_number_kept_integer :
    (prepareIpConnection "IP4" "TCP" recA).pid_number = PyVal.int 1234 ∧
    (prepareIpConnection "IP4" "TCP" recA).pid_number.isStr = false ∧
    (prepareIpConnection "IP4" "TCP" recB).pid_number = PyVal.str "-" ∧
    ((prepareIpConnection "IP4" "TCP" recA).local_address.data.all
      (fun ch => ch ≠ spaceChar)) = true ∧
    ((prepareIpConnection "IP4" "TCP" recA).remote_address.data.all
      (fun ch => ch ≠ spaceChar)) = true ∧
    (prepareIpConnection "IP4" "TCP" recA).local_address =
      "addr(ip=" ++ quoteS ++ "127.0.0.1" ++ quoteS ++ ",port=9150)" := by decide

/-- C3 (counterexample): with the valid ip kind IP4 but the invalid transport
kind UDPX, and an empty OS socket table, the watcher queries the OS socket
table (the boolean is true) and then returns successfully — it neither fails
with a configuration error nor fails before the OS query. -/
theorem C3_counterexample :
    ("UDPX" : String) ≠ "TCP" ∧ ("UDPX" : String) ≠ "UDP" ∧
    IpConnectionWatcher.run osEmpty "IP4" "UDPX" = (true, .ok []) := by decide

/-- C3 (amended): an unknown ip kind raises `KeyError` before the OS
socket-table query; an unknown transport kind (with a valid ip kind) does not
fail before the OS query — the query is always made first, after which the run
raises `KeyError` only if the table is non-empty and silently returns `[]`
when it is empty. -/
theorem C3_validation_amended (os : String → List SConn) (ip_kind transport_kind : String) :
    (IP_MAPPER ip_kind = none →
      IpConnectionWatcher.run os ip_kind transport_kind =
        (false, .error (.keyError ip_kind))) ∧
    (∀ k, IP_MAPPER ip_kind = some k → TRANSPORT_MAPPER transport_kind = none →
      (IpConnectionWatcher.run os ip_kind transport_kind).1 = true ∧
      (os k = [] → (IpConnectionWatcher.run os ip_kind transport_kind).2 = .ok []) ∧
      (os k ≠ [] → (IpConnectionWatcher.run os ip_kind transport_kind).2 =
        .error (.keyError transport_kind))) := by
  constructor
  · intro h
    simp [IpConnectionWatcher.run, fetchIpConnections, h]
  · intro k hk htk
    refine ⟨?_, ?_, ?_⟩
    · simp [IpConnectionWatcher.run, fetchIpConnections, hk]
    · intro he
      simp [IpConnectionWatcher.run, fetchIpConnections, hk, he, listcompFilterPrepare]
    · intro hne
      cases hos : os k with
      | nil => exact absurd hos hne
      | cons c rest =>
        simp [IpConnectionWatcher.run, fetchIpConnections, hk, hos,
          listcompFilterPrepare, htk]

/-- Witness for C3 (amended): the unknown ip kind IPX fails with the OS never
queried; the unknown transport kind UDPX over a non-empty table fails with a
`KeyError` (after the query). -/
theorem C3_witness :
    IpConnectionWatcher.run osEmpty "IPX" "TCP" = (false, .error (.keyError "IPX")) ∧
    (IpConnectionWatcher.run os1 "IP4" "UDPX").2 = .error (.keyError "UDPX") := by
  constructor
  · exact (C3_validation_amended osEmpty "IPX" "TCP").1 (by decide)
  · exact ((C3_validation_amended os1 "IP4" "UDPX").2 "inet4" (by decide) (by decide)).2.2
      (by decide)

/-- C7: for a valid pair of kinds, the watcher run keeps exactly the raw
records whose socket type matches the requested transport, maps them through
`__prepare_ip_connection`, and every resulting Finding carries exactly the
requested ip kind and transport kind. -/
theorem C7_run_filters_matching (os : String → List SConn) (ip_kind transport_kind k : String)
    (t : Nat) (hik : IP_MAPPER ip_kind = some k)
    (htk : TRANSPORT_MAPPER transport_kind = some t) :
    IpConnectionWatcher.run os ip_kind transport_kind =
      (true, .ok (((os k).filter (fun c => c.type = t)).map
        (prepareIpConnection ip_kind transport_kind))) ∧
    ∀ f ∈ ((os k).filter (fun c => c.type = t)).map
        (prepareIpConnection ip_kind transport_kind),
      f.ip_version = ip_kind ∧ f.transport_version = transport_kind := by
  constructor
  · simp [IpConnectionWatcher.run, fetchIpConnections, hik,
      listcomp_ok ip_kind transport_kind t htk]
  · intro f hf
    obtain ⟨c, _, rfl⟩ := List.mem_map.1 hf
    exact ⟨rfl, rfl⟩

/-- Witness for C7 over the mixed TCP/UDP table `os1`: the UDP record is
dropped, the two TCP records are kept in order, and the mapped Finding carries
the requested kinds. -/
theorem C7_witness :
    IpConnectionWatcher.run os1 "IP4" "TCP" =
      (true, .ok [prepareIpConnection "IP4" "TCP" recA, prepareIpConnection "IP4" "TCP" recL]) ∧
    (prepareIpConnection "IP4" "TCP" recA).ip_version = "IP4" ∧
    (prepareIpConnection "IP4" "TCP" recA).transport_version = "TCP" := by
  have h := C7_run_filters_matching os1 "IP4" "TCP" "inet4" 1 (by decide) (by decide)
  refine ⟨?_, h.2 (prepareIpConnection "IP4" "TCP" recA) (by decide)⟩
  rw [h.1]
  decide

/-- The reporter loop result hidden inside a successful `report` call: the
post-state is the loop post-state, and the printed lines are the loop lines
with the banner prepended exactly when some entry is flagged. -/
theorem report_ok_loop (env : ProcEnv) (l : List (IpConnection × Bool))
    (lines : List String) (post : List (IpConnection × Bool))
    (h : BasicReporter.report env l = .ok (lines, post)) :
    ∃ ls, reportLoop env l = .ok (ls, post) ∧
      (l.any (fun p => p.2) = true → lines = bannerLine :: ls) ∧
      (l.any (fun p => p.2) = false → lines = ls) := by
  unfold BasicReporter.report at h
  cases hl : reportLoop env l with
  | error e => rw [hl] at h; cases h
  | ok r =>
    rw [hl] at h
    cases hany : l.any (fun p => p.2) with
    | true =>
      rw [hany] at h
      simp only [if_true] at h
      rw [Except.ok.injEq, Prod.mk.injEq] at h
      refine ⟨r.1, ?_, fun _ => h.1.symm, fun hc => Bool.noConfusion hc⟩
      rw [← h.2]
    | false =>
      rw [hany] at h
      simp only [Bool.false_eq_true, if_false] at h
      rw [Except.ok.injEq, Prod.mk.injEq] at h
      refine ⟨r.1, ?_, fun hc => Bool.noConfusion hc, fun _ => h.1.symm⟩
      rw [← h.2]

/-- C9: on a successful console-reporter call, when no entry is flagged (in
particular on the empty list) nothing at all is printed and the input is
returned unchanged; when at least one entry is flagged, the output is the
banner followed by exactly the flagged items in order, each rendered and
prefixed with the bullet (`renderFlagged`). -/
theorem C9_reporter_flagged_only (env : ProcEnv) (l : List (IpConnection × Bool))
    (lines : List String) (post : List (IpConnection × Bool))
    (h : BasicReporter.report env l = .ok (lines, post)) :
    (l.filter (fun p => p.2) = [] → lines = [] ∧ post = l) ∧
    (l.filter (fun p => p.2) ≠ [] →
      renderFlagged env l = .ok lines.tail ∧ lines = bannerLine :: lines.tail) := by
  obtain ⟨ls, hl2, hbt, hbf⟩ := report_ok_loop env l lines post h
  constructor
  · intro hfil
    have hfalse : ∀ p ∈ l, p.2 = false := by
      intro p hp
      have hnp := List.filter_eq_nil_iff.1 hfil p hp
      cases hpb : p.2 with
      | false => rfl
      | true => exact absurd hpb hnp
    have hany : l.any (fun p => p.2) = false :=
      List.any_eq_false.2 (fun p hp => by simp [hfalse p hp])
    have hloop0 := reportLoop_all_false env l hfalse
    rw [hloop0] at hl2
    rw [Except.ok.injEq, Prod.mk.injEq] at hl2
    exact ⟨by rw [hbf hany, ← hl2.1], hl2.2.symm⟩
  · intro hfil
    obtain ⟨q, hq⟩ := List.exists_mem_of_ne_nil _ hfil
    have hql : q ∈ l ∧ q.2 = true := by
      have := List.mem_filter.1 hq
      exact ⟨this.1, this.2⟩
    have hany : l.any (fun p => p.2) = true :=
      List.any_eq_true.2 ⟨q, hql.1, hql.2⟩
    have hlines := hbt hany
    have hren := reportLoop_renders env l ls post hl2
    rw [hlines]
    exact ⟨by simpa using hren, rfl⟩

/-- The console lines printed for the single flagged sentinel Finding. -/
def lines9 : List String := [bannerLine, bulletStr ++ IpConnection.render fDash]

/-- Witness for C9 at the one-element flagged list `[(fDash, true)]`. -/
theorem C9_witness :
    renderFlagged env1 [(fDash, true)] = .ok lines9.tail ∧
    lines9 = bannerLine :: lines9.tail := by
  have h := C9_reporter_flagged_only env1 [(fDash, true)] lines9 [(fDash, true)] (by decide)
  exact h.2 (by decide)

/-- C1 (counterexample): the console reporter does mutate its input — after
reporting the flagged Finding `f1` (pid 1234, live in `env1`), the Finding in
the list has `pid_details` changed from the sentinel to the cached process
descriptor. -/
theorem C1_counterexample :
    Except.map (fun r => r.2.map (fun p => p.1.pid_details))
        (BasicReporter.report env1 [(f1, true)]) =
      Except.ok ["pid=1234, name=python"] ∧
    f1.pid_details = "-" ∧ ("pid=1234, name=python" : String) ≠ "-" := by decide

/-- C1 (amended): a successful `BasicReporter.report` preserves the length and
order of its input and, entrywise, every field and the flag except that a
flagged entry may have its `pid_details` overwritten by the lazy process
lookup inside `str(...)`; an unflagged entry is returned completely
unchanged. -/
theorem C1_report_frame_amended (env : ProcEnv) (l : List (IpConnection × Bool))
    (lines : List String) (post : List (IpConnection × Bool))
    (h : BasicReporter.report env l = .ok (lines, post)) :
    post.length = l.length ∧ List.Forall₂ frameRel l post := by
  obtain ⟨ls, hl2, _, _⟩ := report_ok_loop env l lines post h
  have hforall := reportLoop_frame env l ls post hl2
  exact ⟨(List.Forall₂.length_eq hforall).symm, hforall⟩

/-- Witness for C1 (amended) at the concrete run that mutates `f1` into
`f1m`. -/
theorem C1_witness :
    ([(f1m, true)] : List (IpConnection × Bool)).length =
      ([(f1, true)] : List (IpConnection × Bool)).length ∧
    List.Forall₂ frameRel [(f1, true)] [(f1m, true)] :=
  C1_report_frame_amended env1 [(f1, true)]
    [bannerLine, bulletStr ++ IpConnection.render f1m] [(f1m, true)] (by decide)

/-- C10: one supervisor invocation is exactly the composition
`reporter.report(analyzer.analyze(watcher.run()))`, each stage run once: a
watcher failure propagates unchanged, a watcher success feeds exactly its
findings through `analyze` into the reporter, and an empty watcher result
reaches the reporter as `[]` with zero `analyze_item` invocations. -/
theorem C10_supervisor_single_pass (env : ProcEnv) (os : String → List SConn)
    (ip_kind transport_kind : String) (g : IpConnection → Bool) :
    (∀ e, (IpConnectionWatcher.run os ip_kind transport_kind).2 = .error e →
      SupervisorManager.report env os ip_kind transport_kind g =
        ((IpConnectionWatcher.run os ip_kind transport_kind).1, .error e)) ∧
    (∀ fs, (IpConnectionWatcher.run os ip_kind transport_kind).2 = .ok fs →
      SupervisorManager.report env os ip_kind transport_kind g =
        ((IpConnectionWatcher.run os ip_kind transport_kind).1,
          BasicReporter.report env (AnalyzerService.analyze g fs))) ∧
    ((IpConnectionWatcher.run os ip_kind transport_kind).2 = .ok [] →
      (AnalyzerService.analyzeInstr g ([] : List IpConnection)).2 = 0 ∧
      (SupervisorManager.report env os ip_kind transport_kind g).2 =
        BasicReporter.report env [] ∧
      BasicReporter.report env ([] : List (IpConnection × Bool)) = .ok ([], [])) := by
  refine ⟨?_, ?_, ?_⟩
  · intro e he
    simp [SupervisorManager.report, he]
  · intro fs hfs
    simp [SupervisorManager.report, hfs]
  · intro h0
    refine ⟨rfl, ?_, rfl⟩
    simp [SupervisorManager.report, h0, AnalyzerService.analyze]

/-- Witness for C10: the empty table gives an empty watcher result, the
reporter is called with `[]` and prints nothing; an invalid ip kind makes the
watcher fail and the failure propagates through the supervisor unchanged. -/
theorem C10_witness :
    (SupervisorManager.report env1 osEmpty "IP4" "TCP" gTrue).2 =
      BasicReporter.report env1 [] ∧
    BasicReporter.report env1 ([] : List (IpConnection × Bool)) = .ok ([], []) ∧
    SupervisorManager.report env1 osEmpty "IPX" "TCP" gTrue =
      (false, .error (.keyError "IPX")) := by
  have h := (C10_supervisor_single_pass env1 osEmpty "IP4" "TCP" gTrue).2.2 (by decide)
  have h2 := (C10_supervisor_single_pass env1 osEmpty "IPX" "TCP" gTrue).1
    (.keyError "IPX") (by decide)
  refine ⟨h.2.1, h.2.2, ?_⟩
  rw [h2]
  decide
